import Mathlib

/-!
Shallow embedding of `src/api.py` of the GirlfriendGPT repository: the
configuration object `GirlFriendGPTConfig`, the system-prompt template and the
semantics of the Python `str.format` call made on it, and the service class
`GirlfriendGPT` with its `limit_exceeded`, `run_agent` (emit-callback wrapping)
and `voice_tool` methods.  Side effects (calls to the original emit callbacks)
are modelled as explicit traces: a wrapped emit callback becomes a pure
function from the incoming batch to the ordered list of calls it forwards to
the original callback, each call being the list of blocks passed in that call.
-/

/-- A Steamship `Block`: one unit of conversational output.  `is_text` models
the `block.is_text()` tag (text vs. image/audio/video), `text` the `.text`
attribute (`none` models malformed/missing text), `publicData` the
public-access flag toggled by `set_public_data`, and `payload` stands for the
opaque binary content / identity of a non-text block. -/
structure Block where
  is_text : Bool
  text : Option String
  publicData : Bool
  payload : String
deriving DecidableEq, Repr

/-- Builds `Block(text="...")` as used for the three notice messages in
`limit_exceeded`: a text block with the given text and default flags. -/
def Block.ofText (s : String) : Block :=
  { is_text := true, text := some s, publicData := false, payload := "" }

/-- Modelled from the spec: the sanitizer `clean_text` lives in
`tools/utils.py`, which is not part of the repository snapshot (only its
caller `wrap_emit` in `src/api.py` is).  Per the spec the sanitizer is a pure
total function from raw text to cleaned text or the empty string, and a
message with malformed or missing text is treated as empty.  We therefore
model it as an arbitrary cleaning function `cleanFn` on present text, and the
empty string on missing text. -/
def clean_text (cleanFn : String → String) : Option String → String
  | none => ""
  | some s => cleanFn s

/-- One iteration of the `for block in blocks` loop of the `wrapper` closure
built by `wrap_emit` in `run_agent`: the ordered list of calls this iteration
makes to the original emit callback (each call is the block list passed).
`speech` is the `speech` variable captured by the closure (the result of
`self.voice_tool()`), modelled as an optional synthesis function standing for
`lambda b: speech.run([b], context)[0]`. -/
def processBlock (speech : Option (Block → Block)) (cleanFn : String → String)
    (b : Block) : List (List Block) :=
  if b.is_text then
    let t := clean_text cleanFn b.text
    if t = "" then
      []
    else
      let b' := { b with text := some t }
      match speech with
      | some run => [[b'], [{ run b' with publicData := true }]]
      | none => [[b']]
  else
    [[b]]

/-- The `wrapper` closure returned by `wrap_emit`: given the batch of blocks
it receives, the ordered trace of calls it forwards to the one original emit
callback it wraps.  The Python `for` loop visits blocks in input order and
each iteration's emissions happen before the next iteration starts. -/
def wrapper (speech : Option (Block → Block)) (cleanFn : String → String) :
    List Block → List (List Block)
  | [] => []
  | b :: rest => processBlock speech cleanFn b ++ wrapper speech cleanFn rest

/-- Embedding of `GirlFriendGPTConfig` from `src/api.py`: field defaults transcribed from
the pydantic `Field(...)` declarations (`elevenlabs_api_key`,
`elevenlabs_voice_id` and `chat_ids` default to `""`; `use_gpt4` defaults to
`True`); the other fields are required. -/
structure GirlFriendGPTConfig where
  bot_token : String
  elevenlabs_api_key : String := ""
  elevenlabs_voice_id : String := ""
  chat_ids : String := ""
  name : String
  byline : String
  identity : String
  behavior : String
  use_gpt4 : Bool := true
deriving DecidableEq, Repr

/-- Constructing the configuration giving values only for the required fields
(`bot_token`, `name`, `byline`, `identity`, `behavior`); every optional field
takes its declared default. -/
def GirlFriendGPTConfig.mkRequired
    (bot_token name byline identity behavior : String) : GirlFriendGPTConfig :=
  { bot_token := bot_token, name := name, byline := byline,
    identity := identity, behavior := behavior }

/-- Embedding of `GenerateSpeechTool` as configured by `voice_tool`: the
`generator_plugin_config` dictionary it is given. -/
structure GenerateSpeechTool where
  voice_id : String
  elevenlabs_api_key : String
deriving DecidableEq, Repr

/-- Embedding of `GirlfriendGPT.voice_tool`: builds a `GenerateSpeechTool`, sets its
plugin config from the (possibly empty) ElevenLabs credentials, and returns
it.  Despite the `Optional[Tool]` annotation the Python body has a single
unconditional `return speech`, so the result is always `some`. -/
def voice_tool (cfg : GirlFriendGPTConfig) : Option GenerateSpeechTool :=
  some { voice_id := cfg.elevenlabs_voice_id,
         elevenlabs_api_key := cfg.elevenlabs_api_key }

/-- Constant `MAX_FREE_MESSAGES` from `src/api.py`. -/
def MAX_FREE_MESSAGES : ℕ := 5

/-- The three fixed notice blocks emitted by `limit_exceeded`, in source
order. -/
def noticeBlocks : List Block :=
  [Block.ofText "Thanks for trying out SachaGPT!",
   Block.ofText "Please deploy your own version GirlfriendGPT to continue chatting.",
   Block.ofText "Learn how on: https://github.com/EniasCailliau/GirlfriendGPT/"]

/-- The part of the `AgentContext` that `limit_exceeded` and `run_agent`
read: `historyLen` is `len(context.chat_history.messages)` and
`numEmitFuncs` the length of `context.emit_funcs` (original callbacks are
identified by their index in that list). -/
structure AgentContext where
  historyLen : ℕ
  numEmitFuncs : ℕ
deriving DecidableEq, Repr

/-- Embedding of `GirlfriendGPT.limit_exceeded`: returns the boolean result together with
the trace of emissions it performs, each entry pairing the index of an
original emit callback with the block list passed to it.  `hasattr(self.config,
"chat_ids")` is always true (the field is declared on the class), so the guard
reduces to the truthiness of the string `chat_ids`; the quota comparison
`len(...) / 2 > MAX_FREE_MESSAGES` is Python float division, modelled exactly
in ℚ. -/
def limit_exceeded (cfg : GirlFriendGPTConfig) (ctx : AgentContext) :
    Bool × List (ℕ × List Block) :=
  if cfg.chat_ids ≠ "" then
    if ((ctx.historyLen : ℚ) / 2 > (MAX_FREE_MESSAGES : ℚ)) then
      (true, (List.range ctx.numEmitFuncs).map (fun i => (i, noticeBlocks)))
    else
      (false, [])
  else
    (false, [])

/-- Outcome of one `GirlfriendGPT.run_agent` turn: the emissions made before
(or instead of) invoking the agent, whether `super().run_agent` was reached,
and—when it was—the behavior each wrapped emit callback was replaced with
(the trace of calls it forwards to its original callback on a given batch). -/
structure TurnOutcome where
  preTrace : List (ℕ × List Block)
  agentInvoked : Bool
  emitBehavior : Option (List Block → List (List Block))

/-- Embedding of `GirlfriendGPT.run_agent`: checks `limit_exceeded` and returns early when
it fires; otherwise obtains `speech = self.voice_tool()`, replaces every
emit callback by its `wrap_emit` wrapper and invokes `super().run_agent`.
`synth` models the external behavior of `speech.run` (what audio block the
configured tool synthesizes from a given single-block batch), and `cleanFn`
the external sanitizer, as in `clean_text`. -/
def run_agent (cfg : GirlFriendGPTConfig) (synth : GenerateSpeechTool → Block → Block)
    (cleanFn : String → String) (ctx : AgentContext) : TurnOutcome :=
  let le := limit_exceeded cfg ctx
  if le.1 then
    { preTrace := le.2, agentInvoked := false, emitBehavior := none }
  else
    let speech := (voice_tool cfg).map synth
    { preTrace := le.2, agentInvoked := true,
      emitBehavior := some (wrapper speech cleanFn) }

theorem wrapper_append (speech : Option (Block → Block)) (cleanFn : String → String)
    (xs ys : List Block) :
    wrapper speech cleanFn (xs ++ ys) =
      wrapper speech cleanFn xs ++ wrapper speech cleanFn ys := by
  induction xs with
  | nil => simp [wrapper]
  | cons b rest ih => simp [wrapper, ih]

/-- The module-level `SYSTEM_PROMPT` template string of `src/api.py`,
transcribed verbatim. -/
def SYSTEM_PROMPT : String :=
"You are {self.name}, {self.byline}.

Who you are:

{identity_str}

How you behave:

{behavior_str}

NOTE: Some functions return images, video, and audio files. These multimedia files will be represented in messages as
UUIDs for Steamship Blocks. When responding directly to a user, you SHOULD print the Steamship Blocks for the images,
video, or audio as follows: `Block(UUID for the block)`.

Example response for a request that generated an image:
Here is the image you requested: Block(288A2CA1-4753-4298-9716-53C1E42B726B).

Only use the functions you have been provided with.
"

/-- The opening-brace character, written by code. -/
def lbrace : Char := '\x7b'

/-- The closing-brace character, written by code. -/
def rbrace : Char := '\x7d'

/-- Python `str.format` key resolution for one replacement field: the
`arg_name` is the part of the field before the first attribute access
(a dot), indexing (an opening square bracket), conversion (an exclamation
mark) or format spec (a colon); it is the key looked up among the keyword
arguments. -/
def fieldKey (field : List Char) : String :=
  String.mk (field.takeWhile (fun c => c != '.' && c != '[' && c != '!' && c != ':'))

/-- Scans a template the way Python `str.format` does, collecting in order
the `arg_name` key of every replacement field; a doubled opening brace is the
escaped literal brace and starts no field.  The first parameter is `none`
outside a replacement field and `some acc` inside one, with `acc` holding the
field characters read so far in reverse. -/
def formatKeysAux : Option (List Char) → List Char → List String
  | _, [] => []
  | none, c :: rest =>
    if c = lbrace then
      match rest with
      | [] => []
      | c2 :: rest2 =>
        if c2 = lbrace then formatKeysAux none rest2
        else if c2 = rbrace then fieldKey [] :: formatKeysAux none rest2
        else formatKeysAux (some [c2]) rest2
    else
      formatKeysAux none rest
  | some acc, c :: rest =>
    if c = rbrace then
      fieldKey acc.reverse :: formatKeysAux none rest
    else
      formatKeysAux (some (c :: acc)) rest

/-- The ordered list of replacement-field keys of a template. -/
def formatKeys (template : String) : List String :=
  formatKeysAux none template.data

/-- Python renders a format string left to right and raises `KeyError(k)` at
the first replacement field whose key `k` is not among the supplied keyword
arguments; this returns that key, or `none` when every key resolves. -/
def format_first_missing (template : String) (kwargs : List String) : Option String :=
  (formatKeys template).find? (fun k => !(kwargs.contains k))

/-- The system-prompt formatting step of `GirlfriendGPT.__init__`:
`SYSTEM_PROMPT.format(name=self.config.name, byline=self.config.byline,
identity=self.config.identity, behavior=self.config.behavior)`.  Key
resolution depends only on the keyword names, not on the configuration's
field values; the result is the key of the `KeyError` the call raises, or
`none` if formatting would succeed and `__init__` could proceed. -/
def init_format_error (_cfg : GirlFriendGPTConfig) : Option String :=
  format_first_missing SYSTEM_PROMPT ["name", "byline", "identity", "behavior"]


/-! Concrete sample values used by the witness and counterexample theorems. -/

/-- A sample behavior of `speech.run` for the configured tool: synthesizing
an audio block (non-text, publicly private until flagged) whose payload
records the source text. -/
def demoSynth : GenerateSpeechTool → Block → Block :=
  fun _tool b =>
    { is_text := false, text := none, publicData := false,
      payload := (b.text.getD "") ++ ".mp3" }

/-- The sample synthesis function for a tool with empty credentials. -/
def demoRun : Block → Block :=
  demoSynth { voice_id := "", elevenlabs_api_key := "" }

/-- A sample sanitizer that leaves text unchanged. -/
def demoClean : String → String := fun s => s

/-- A sample sanitizer whose output is always empty. -/
def demoCleanEmpty : String → String := fun _ => ""

/-- A sample text block. -/
def demoTextBlock : Block :=
  { is_text := true, text := some "hello", publicData := false, payload := "" }

/-- A sample non-text (image) block. -/
def demoImageBlock : Block :=
  { is_text := false, text := none, publicData := false, payload := "img-001" }

/-- A configuration built from required fields only (so with empty ElevenLabs
credentials, empty allowlist and default model tier). -/
def cfgNoVoice : GirlFriendGPTConfig :=
  GirlFriendGPTConfig.mkRequired "token123" "Sacha" "an ai companion" "warm" "caring"

/-- The same configuration with a non-empty `chat_ids` allowlist. -/
def cfgAllow : GirlFriendGPTConfig :=
  { cfgNoVoice with chat_ids := "12345,67890" }

/-- A context with twelve history messages and two emit callbacks. -/
def ctx12 : AgentContext := { historyLen := 12, numEmitFuncs := 2 }

/-- A context with a thousand history messages and one emit callback. -/
def ctx1000 : AgentContext := { historyLen := 1000, numEmitFuncs := 1 }

/-! The claims. -/

/-- C1: for every agent turn where the `chat_ids` allowlist is non-empty and
the conversation's message count divided by two exceeds 5, `run_agent` emits
exactly the three fixed notice text messages through every original emit
callback (one call per callback carrying the three notice blocks) and returns
without invoking the agent: `super().run_agent` is never reached and no
wrapped emit behavior is installed. -/
theorem C1_quota_exceeded_blocks_agent (cfg : GirlFriendGPTConfig)
    (synth : GenerateSpeechTool → Block → Block) (cleanFn : String → String)
    (ctx : AgentContext) (hallow : cfg.chat_ids ≠ "")
    (hcount : (ctx.historyLen : ℚ) / 2 > (MAX_FREE_MESSAGES : ℚ)) :
    run_agent cfg synth cleanFn ctx =
      { preTrace := (List.range ctx.numEmitFuncs).map (fun i => (i, noticeBlocks)),
        agentInvoked := false, emitBehavior := none } := by
  simp [run_agent, limit_exceeded, hallow, hcount]

/-- Witness for C1 at a concrete input: allowlist "12345,67890", twelve
history messages (12 / 2 = 6 > 5), two emit callbacks. -/
theorem C1_witness :
    cfgAllow.chat_ids ≠ "" ∧
    (ctx12.historyLen : ℚ) / 2 > (MAX_FREE_MESSAGES : ℚ) ∧
    run_agent cfgAllow demoSynth demoClean ctx12 =
      { preTrace := (List.range ctx12.numEmitFuncs).map (fun i => (i, noticeBlocks)),
        agentInvoked := false, emitBehavior := none } := by
  have hallow : cfgAllow.chat_ids ≠ "" := by decide
  have hcount : (ctx12.historyLen : ℚ) / 2 > (MAX_FREE_MESSAGES : ℚ) := by
    norm_num [ctx12, MAX_FREE_MESSAGES]
  exact ⟨hallow, hcount,
    C1_quota_exceeded_blocks_agent cfgAllow demoSynth demoClean ctx12 hallow hcount⟩

/-- C2: when the `chat_ids` allowlist is the empty string, the quota check
never fires whatever the message count: `limit_exceeded` returns false,
emits nothing, and the agent is invoked. -/
theorem C2_no_allowlist_never_limits (cfg : GirlFriendGPTConfig)
    (synth : GenerateSpeechTool → Block → Block) (cleanFn : String → String)
    (ctx : AgentContext) (h : cfg.chat_ids = "") :
    (limit_exceeded cfg ctx).1 = false ∧
    (limit_exceeded cfg ctx).2 = [] ∧
    (run_agent cfg synth cleanFn ctx).agentInvoked = true := by
  refine ⟨?_, ?_, ?_⟩ <;> simp [run_agent, limit_exceeded, h]

/-- Witness for C2 at a concrete input: default (empty) allowlist and a
thousand history messages. -/
theorem C2_witness :
    cfgNoVoice.chat_ids = "" ∧
    ((limit_exceeded cfgNoVoice ctx1000).1 = false ∧
     (limit_exceeded cfgNoVoice ctx1000).2 = [] ∧
     (run_agent cfgNoVoice demoSynth demoClean ctx1000).agentInvoked = true) := by
  have h : cfgNoVoice.chat_ids = "" := by decide
  exact ⟨h, C2_no_allowlist_never_limits cfgNoVoice demoSynth demoClean ctx1000 h⟩

/-- C3: for any text message in a batch whose sanitized form is non-empty,
when a speech tool is configured the wrapped emit callback makes exactly two
calls for it, in order: first the message with its text mutated to the
sanitized value, then the audio block the tool synthesizes from that
sanitized message with its public-access flag set to true — all through the
same original callback, between the outputs for the preceding and following
parts of the batch. -/
theorem C3_sanitized_text_then_audio (run : Block → Block)
    (cleanFn : String → String) (xs ys : List Block) (b : Block)
    (ht : b.is_text = true) (hne : clean_text cleanFn b.text ≠ "") :
    wrapper (some run) cleanFn (xs ++ b :: ys) =
      wrapper (some run) cleanFn xs ++
        ([{ b with text := some (clean_text cleanFn b.text) }] ::
         [{ run { b with text := some (clean_text cleanFn b.text) } with publicData := true }] ::
         wrapper (some run) cleanFn ys) := by
  rw [wrapper_append]
  simp [wrapper, processBlock, ht, hne]

/-- Witness for C3 at a concrete input: batch of an image block followed by
the text block "hello", identity sanitizer, sample synthesis function. -/
theorem C3_witness :
    demoTextBlock.is_text = true ∧
    clean_text demoClean demoTextBlock.text ≠ "" ∧
    wrapper (some demoRun) demoClean ([demoImageBlock] ++ demoTextBlock :: []) =
      wrapper (some demoRun) demoClean [demoImageBlock] ++
        ([{ demoTextBlock with text := some (clean_text demoClean demoTextBlock.text) }] ::
         [{ demoRun { demoTextBlock with
              text := some (clean_text demoClean demoTextBlock.text) } with
            publicData := true }] ::
         wrapper (some demoRun) demoClean []) := by
  have ht : demoTextBlock.is_text = true := by decide
  have hne : clean_text demoClean demoTextBlock.text ≠ "" := by decide
  exact ⟨ht, hne,
    C3_sanitized_text_then_audio demoRun demoClean [demoImageBlock] [] demoTextBlock ht hne⟩

/-- C5: a text message whose sanitized form is empty contributes no call at
all to the wrapped emit callback's trace (neither text nor audio), and a
message with missing text sanitizes to the empty string, so it is likewise
dropped. -/
theorem C5_empty_sanitized_dropped (speech : Option (Block → Block))
    (cleanFn : String → String) (xs ys : List Block) (b : Block)
    (ht : b.is_text = true) (he : clean_text cleanFn b.text = "") :
    wrapper speech cleanFn (xs ++ b :: ys) =
      wrapper speech cleanFn xs ++ wrapper speech cleanFn ys ∧
    ∀ f : String → String, clean_text f none = "" := by
  constructor
  · rw [wrapper_append]
    simp [wrapper, processBlock, ht, he]
  · intro f
    rfl

/-- Witness for C5 at a concrete input: the all-empty sanitizer on the text
block "hello", surrounded by image blocks, with the speech tool present. -/
theorem C5_witness :
    demoTextBlock.is_text = true ∧
    clean_text demoCleanEmpty demoTextBlock.text = "" ∧
    (wrapper (some demoRun) demoCleanEmpty ([demoImageBlock] ++ demoTextBlock :: [demoImageBlock]) =
       wrapper (some demoRun) demoCleanEmpty [demoImageBlock] ++
         wrapper (some demoRun) demoCleanEmpty [demoImageBlock] ∧
     ∀ f : String → String, clean_text f none = "") := by
  have ht : demoTextBlock.is_text = true := by decide
  have he : clean_text demoCleanEmpty demoTextBlock.text = "" := by decide
  exact ⟨ht, he,
    C5_empty_sanitized_dropped (some demoRun) demoCleanEmpty
      [demoImageBlock] [demoImageBlock] demoTextBlock ht he⟩

/-- C6: a wrapped emit callback processes its batch message by message in
input order with no reordering: its trace is the concatenation of the
per-message traces in batch order, and splitting a batch anywhere splits the
trace at the matching point, so every output of a message precedes every
output of the next. -/
theorem C6_batch_processed_in_order (speech : Option (Block → Block))
    (cleanFn : String → String) (blocks : List Block) :
    wrapper speech cleanFn blocks =
      (blocks.map (processBlock speech cleanFn)).flatten ∧
    ∀ xs ys : List Block,
      wrapper speech cleanFn (xs ++ ys) =
        wrapper speech cleanFn xs ++ wrapper speech cleanFn ys := by
  constructor
  · induction blocks with
    | nil => rfl
    | cons b rest ih => simp [wrapper, ih]
  · exact fun xs ys => wrapper_append speech cleanFn xs ys

/-- C7: a non-text (image/audio/video) message in a batch is forwarded by the
wrapped emit callback exactly once, unchanged — no sanitization, no text
mutation, no derived audio call. -/
theorem C7_nontext_passthrough (speech : Option (Block → Block))
    (cleanFn : String → String) (xs ys : List Block) (b : Block)
    (hnt : b.is_text = false) :
    wrapper speech cleanFn (xs ++ b :: ys) =
      wrapper speech cleanFn xs ++ ([b] :: wrapper speech cleanFn ys) := by
  rw [wrapper_append]
  simp [wrapper, processBlock, hnt]

/-- Witness for C7 at a concrete input: an image block between two text
blocks, with the speech tool present. -/
theorem C7_witness :
    demoImageBlock.is_text = false ∧
    wrapper (some demoRun) demoClean ([demoTextBlock] ++ demoImageBlock :: [demoTextBlock]) =
      wrapper (some demoRun) demoClean [demoTextBlock] ++
        ([demoImageBlock] :: wrapper (some demoRun) demoClean [demoTextBlock]) := by
  have hnt : demoImageBlock.is_text = false := by decide
  exact ⟨hnt,
    C7_nontext_passthrough (some demoRun) demoClean
      [demoTextBlock] [demoTextBlock] demoImageBlock hnt⟩

/-- C4: evaluation of the code at the failing input.  With both ElevenLabs
credentials left empty (voice not configured), `voice_tool` still returns a
tool — its body returns unconditionally despite the `Optional[Tool]`
annotation — so `run_agent` hands `wrap_emit` a truthy `speech` and a text
message with non-empty sanitized form produces two delivered messages
(sanitized text and derived audio), not the single message the claim and the
spec require. -/
theorem C4_empty_credentials_still_fan_out :
    cfgNoVoice.elevenlabs_api_key = "" ∧
    cfgNoVoice.elevenlabs_voice_id = "" ∧
    voice_tool cfgNoVoice ≠ none ∧
    (wrapper ((voice_tool cfgNoVoice).map demoSynth) demoClean [demoTextBlock]).length = 2 := by
  refine ⟨rfl, rfl, ?_, ?_⟩
  · decide
  · decide

/-- C8 counterexample: a configuration constructed without values for the
optional fields has `use_gpt4 = true` — the pydantic default is `True`, so
the model-tier flag does not default to false as the claim states. -/
theorem C8_default_use_gpt4_not_false :
    (GirlFriendGPTConfig.mkRequired "t" "n" "b" "i" "be").use_gpt4 ≠ false := by
  decide

/-- C8 amended: when a configuration is constructed without values for the
optional fields, the voice credentials (`elevenlabs_api_key`,
`elevenlabs_voice_id`) and allowlist (`chat_ids`) default to the empty string
and the model-tier flag (`use_gpt4`) defaults to true. -/
theorem C8_optional_field_defaults
    (bot_token name byline identity behavior : String) :
    (GirlFriendGPTConfig.mkRequired bot_token name byline identity behavior).elevenlabs_api_key = "" ∧
    (GirlFriendGPTConfig.mkRequired bot_token name byline identity behavior).elevenlabs_voice_id = "" ∧
    (GirlFriendGPTConfig.mkRequired bot_token name byline identity behavior).chat_ids = "" ∧
    (GirlFriendGPTConfig.mkRequired bot_token name byline identity behavior).use_gpt4 = true :=
  ⟨rfl, rfl, rfl, rfl⟩

set_option maxRecDepth 400000 in
/-- C9: the replacement fields of `SYSTEM_PROMPT` resolve to the keys
`self`, `self`, `identity_str`, `behavior_str`, none of which is among the
keyword arguments `name`, `byline`, `identity`, `behavior` that
`GirlfriendGPT.__init__` passes to `SYSTEM_PROMPT.format`; the very first
field already fails, so for every configuration the formatting step raises
`KeyError` for the key `self` and `__init__` never completes. -/
theorem C9_init_format_always_raises (cfg : GirlFriendGPTConfig) :
    formatKeys SYSTEM_PROMPT = ["self", "self", "identity_str", "behavior_str"] ∧
    init_format_error cfg = some "self" := by
  constructor
  · decide
  · show format_first_missing SYSTEM_PROMPT ["name", "byline", "identity", "behavior"] =
      some "self"
    decide

/-- C10: for every configuration — in particular one with empty
`elevenlabs_api_key` and `elevenlabs_voice_id` — `voice_tool` returns a
speech tool (never none); hence on every turn that passes the quota check
`run_agent` invokes the agent with emit callbacks wrapped around that tool,
and the wrapped callback takes the audio fan-out branch (two calls) for
every text message with non-empty sanitized form. -/
theorem C10_voice_tool_always_configured (cfg : GirlFriendGPTConfig)
    (synth : GenerateSpeechTool → Block → Block) (cleanFn : String → String)
    (ctx : AgentContext) (hq : (limit_exceeded cfg ctx).1 = false) :
    voice_tool cfg = some { voice_id := cfg.elevenlabs_voice_id,
                            elevenlabs_api_key := cfg.elevenlabs_api_key } ∧
    (run_agent cfg synth cleanFn ctx).agentInvoked = true ∧
    (run_agent cfg synth cleanFn ctx).emitBehavior =
      some (wrapper (some (synth { voice_id := cfg.elevenlabs_voice_id,
                                   elevenlabs_api_key := cfg.elevenlabs_api_key })) cleanFn) ∧
    ∀ b : Block, b.is_text = true → clean_text cleanFn b.text ≠ "" →
      (processBlock ((voice_tool cfg).map synth) cleanFn b).length = 2 := by
  refine ⟨rfl, ?_, ?_, ?_⟩
  · simp [run_agent, hq]
  · simp [run_agent, hq, voice_tool]
  · intro b ht hne
    simp [processBlock, voice_tool, ht, hne]

/-- Witness for C10 at a concrete input: the credential-less configuration
and an empty conversation. -/
theorem C10_witness :
    (limit_exceeded cfgNoVoice { historyLen := 0, numEmitFuncs := 1 }).1 = false ∧
    (voice_tool cfgNoVoice = some { voice_id := "", elevenlabs_api_key := "" } ∧
     (run_agent cfgNoVoice demoSynth demoClean { historyLen := 0, numEmitFuncs := 1 }).agentInvoked = true ∧
     (run_agent cfgNoVoice demoSynth demoClean { historyLen := 0, numEmitFuncs := 1 }).emitBehavior =
       some (wrapper (some (demoSynth { voice_id := "", elevenlabs_api_key := "" })) demoClean) ∧
     ∀ b : Block, b.is_text = true → clean_text demoClean b.text ≠ "" →
       (processBlock ((voice_tool cfgNoVoice).map demoSynth) demoClean b).length = 2) := by
  have hq : (limit_exceeded cfgNoVoice { historyLen := 0, numEmitFuncs := 1 }).1 = false := by
    decide
  exact ⟨hq, C10_voice_tool_always_configured cfgNoVoice demoSynth demoClean
    { historyLen := 0, numEmitFuncs := 1 } hq⟩
